import Mathlib

/-!
# apperror: application errors with a kind, a user message and an HTTP status

A shallow embedding of `errors.go` (package `apperror`) and the properties of
its constructors and accessors.

* `ErrorType` is Go's `uint`; the package does no arithmetic on it, so it is
  embedded as `Nat`.
* A Go `error` interface value is `Option GoError`: `none` is `nil`, and a
  non-nil value is seen through the only thing the package asks of it, the
  string returned by its `Error()` method, together with an identity tag.
* `*AppError` methods are embedded twice: on the pointee (namespace `AppError`,
  the method body as a function of the struct value) and on a pointer into an
  explicit heap (namespace `Mem`), where the in-place update of `WithMessage`
  and the identity of the returned pointer are visible.
-/

namespace apperror

/-! ## Data model -/

/-- `type ErrorType uint` (errors.go:8). -/
abbrev ErrorType := Nat

/-- `TypeUnknown ErrorType = iota` (errors.go:11). -/
abbrev TypeUnknown : ErrorType := 0
/-- Second constant of the `iota` block (errors.go:12). -/
abbrev TypeNotValid : ErrorType := 1
/-- Third constant of the `iota` block (errors.go:13). -/
abbrev TypeBadRequest : ErrorType := 2
/-- Fourth constant of the `iota` block (errors.go:14). -/
abbrev TypeUnauthorized : ErrorType := 3
/-- Fifth constant of the `iota` block (errors.go:15). -/
abbrev TypeForbidden : ErrorType := 4
/-- Sixth constant of the `iota` block (errors.go:16). -/
abbrev TypeNotFound : ErrorType := 5
/-- Seventh constant of the `iota` block (errors.go:17). -/
abbrev TypeUnprocessableEntity : ErrorType := 6
/-- Eighth constant of the `iota` block (errors.go:18). -/
abbrev TypeInternal : ErrorType := 7
/-- Ninth constant of the `iota` block (errors.go:19). -/
abbrev TypeTemporaryUnavailable : ErrorType := 8
/-- Tenth constant of the `iota` block (errors.go:20). -/
abbrev TypeMethodNotAllowed : ErrorType := 9
/-- Eleventh constant of the `iota` block (errors.go:21). -/
abbrev TypeTooManyRequests : ErrorType := 10

/-- The eleven declared kinds, in declaration order (errors.go:10-22). -/
def declaredTypes : List ErrorType :=
  [TypeUnknown, TypeNotValid, TypeBadRequest, TypeUnauthorized, TypeForbidden,
   TypeNotFound, TypeUnprocessableEntity, TypeInternal, TypeTemporaryUnavailable,
   TypeMethodNotAllowed, TypeTooManyRequests]

/-- Modelled from the spec: `http.StatusInternalServerError` of Go's `net/http`,
which is not under src/; value from the status table and errors.go:11. -/
abbrev StatusInternalServerError : Int := 500
/-- Modelled from the spec: `http.StatusUnprocessableEntity` of Go's `net/http`,
which is not under src/; value from the status table and errors.go:12. -/
abbrev StatusUnprocessableEntity : Int := 422
/-- Modelled from the spec: `http.StatusBadRequest` of Go's `net/http`,
which is not under src/; value from the status table and errors.go:13. -/
abbrev StatusBadRequest : Int := 400
/-- Modelled from the spec: `http.StatusUnauthorized` of Go's `net/http`,
which is not under src/; value from the status table and errors.go:14. -/
abbrev StatusUnauthorized : Int := 401
/-- Modelled from the spec: `http.StatusForbidden` of Go's `net/http`,
which is not under src/; value from the status table and errors.go:15. -/
abbrev StatusForbidden : Int := 403
/-- Modelled from the spec: `http.StatusNotFound` of Go's `net/http`,
which is not under src/; value from the status table and errors.go:16. -/
abbrev StatusNotFound : Int := 404
/-- Modelled from the spec: `http.StatusServiceUnavailable` of Go's `net/http`,
which is not under src/; value from the status table and errors.go:19. -/
abbrev StatusServiceUnavailable : Int := 503
/-- Modelled from the spec: `http.StatusMethodNotAllowed` of Go's `net/http`,
which is not under src/; value from the status table and errors.go:20. -/
abbrev StatusMethodNotAllowed : Int := 405
/-- Modelled from the spec: `http.StatusTooManyRequests` of Go's `net/http`,
which is not under src/; value from the status table and errors.go:21. -/
abbrev StatusTooManyRequests : Int := 429

/-- The `defaultMessages` map literal (errors.go:25-37), entries in source order,
each string with the bytes of the source. The `TypeNotFound` entry is spelled there
with U+0438 followed by the combining breve U+0306, not with the single letter
U+0439. -/
def defaultMessages : List (ErrorType × String) :=
  [ (TypeNotValid,             "Ошибка валидации данных"),
    (TypeBadRequest,           "Некорректные данные запроса"),
    (TypeUnauthorized,         "Пользователь не авторизован"),
    (TypeForbidden,            "Недостаточно прав для выполнения операции"),
    (TypeNotFound,             "Ресурс не найден"),
    (TypeUnprocessableEntity,  "Невозможно обработать запрос"),
    (TypeInternal,             "Внутренняя ошибка сервера"),
    (TypeTemporaryUnavailable, "Сервис временно недоступен"),
    (TypeMethodNotAllowed,     "Метод не поддерживается"),
    (TypeUnknown,              "Неизвестная ошибка"),
    (TypeTooManyRequests,      "Превышено допустимое количество запросов") ]

/-- Go's map index expression `m[k]` on a `map[ErrorType]string`: the value
stored under `k`, or the zero value `""` when the key is absent. -/
def mapIndex (m : List (ErrorType × String)) (k : ErrorType) : String :=
  match m.lookup k with
  | some s => s
  | none => ""

/-- A non-nil value of Go's `error` interface: an identity tag for the dynamic
value and the string its `Error()` method returns. -/
structure GoError where
  ref : Nat
  Error : String
deriving DecidableEq, Repr

/-- `type AppError struct` (errors.go:40-44); `original` is `none` for `nil`. -/
structure AppError where
  errorType : ErrorType
  message : String
  original : Option GoError
deriving DecidableEq, Repr

/-! ## Methods, on the pointee -/

/-- `func (e *AppError) Error() string` (errors.go:46-51). -/
def AppError.Error (e : AppError) : String :=
  match e.original with
  | none => e.message
  | some o => o.Error

/-- `func (e *AppError) Unwrap() error` (errors.go:53-55). -/
def AppError.Unwrap (e : AppError) : Option GoError :=
  e.original

/-- `func (e *AppError) Type() ErrorType` (errors.go:57-59). -/
def AppError.Type (e : AppError) : ErrorType :=
  e.errorType

/-- `func (e *AppError) Message() string` (errors.go:61-66). -/
def AppError.Message (e : AppError) : String :=
  if e.message ≠ "" then e.message
  else mapIndex defaultMessages e.errorType

/-- `func (e *AppError) HTTPStatusCode() int` (errors.go:68-94): the `switch`
over `e.errorType`, with `status` keeping its initial value when no case matches. -/
def AppError.HTTPStatusCode (e : AppError) : Int :=
  let status := StatusInternalServerError
  if e.errorType = TypeNotValid then StatusUnprocessableEntity
  else if e.errorType = TypeBadRequest then StatusBadRequest
  else if e.errorType = TypeUnauthorized then StatusUnauthorized
  else if e.errorType = TypeForbidden then StatusForbidden
  else if e.errorType = TypeNotFound then StatusNotFound
  else if e.errorType = TypeUnprocessableEntity then StatusUnprocessableEntity
  else if e.errorType = TypeInternal then StatusInternalServerError
  else if e.errorType = TypeTemporaryUnavailable then StatusServiceUnavailable
  else if e.errorType = TypeMethodNotAllowed then StatusMethodNotAllowed
  else if e.errorType = TypeTooManyRequests then StatusTooManyRequests
  else status

/-- `func (e *AppError) WithMessage(message string) *AppError` (errors.go:96-99),
as the new contents of the cell `e` points to. -/
def AppError.WithMessage (e : AppError) (message : String) : AppError :=
  { e with message := message }

/-! ## Constructors -/

/-- `func (eType ErrorType) New(message string, original error) *AppError`
(errors.go:101-106), as the struct value that is allocated. -/
def ErrorType.New (eType : ErrorType) (message : String) (original : Option GoError) :
    AppError :=
  let message := if message = "" then mapIndex defaultMessages eType else message
  { errorType := eType, message := message, original := original }

/-- `func NewError` (errors.go:108-110). -/
def NewError (eType : ErrorType) (message : String) (original : Option GoError) : AppError :=
  ErrorType.New eType message original

/-- `func NewValidation` (errors.go:112-114). -/
def NewValidation (message : String) (original : Option GoError) : AppError :=
  ErrorType.New TypeNotValid message original

/-- `func NewBadRequest` (errors.go:116-118). -/
def NewBadRequest (message : String) (original : Option GoError) : AppError :=
  ErrorType.New TypeBadRequest message original

/-- `func NewUnauthorized` (errors.go:120-122). -/
def NewUnauthorized (message : String) (original : Option GoError) : AppError :=
  ErrorType.New TypeUnauthorized message original

/-- `func NewForbidden` (errors.go:124-126). -/
def NewForbidden (message : String) (original : Option GoError) : AppError :=
  ErrorType.New TypeForbidden message original

/-- `func NewNotFound` (errors.go:128-130). -/
def NewNotFound (message : String) (original : Option GoError) : AppError :=
  ErrorType.New TypeNotFound message original

/-- `func NewUnprocessableEntity` (errors.go:132-134). -/
def NewUnprocessableEntity (message : String) (original : Option GoError) : AppError :=
  ErrorType.New TypeUnprocessableEntity message original

/-- `func NewInternal` (errors.go:136-138). -/
def NewInternal (message : String) (original : Option GoError) : AppError :=
  ErrorType.New TypeInternal message original

/-- `func NewTemporaryUnavailable` (errors.go:140-142). -/
def NewTemporaryUnavailable (message : String) (original : Option GoError) : AppError :=
  ErrorType.New TypeTemporaryUnavailable message original

/-- `func NewUnknown` (errors.go:144-146). -/
def NewUnknown (message : String) (original : Option GoError) : AppError :=
  ErrorType.New TypeUnknown message original

/-- `func NewMethodNotAllowed` (errors.go:148-150). -/
def NewMethodNotAllowed (message : String) (original : Option GoError) : AppError :=
  ErrorType.New TypeMethodNotAllowed message original

/-- `func NewTooManyRequests` (errors.go:152-154). -/
def NewTooManyRequests (message : String) (original : Option GoError) : AppError :=
  ErrorType.New TypeTooManyRequests message original

/-- `func Validation` (errors.go:156-158). -/
def Validation (original : Option GoError) : AppError :=
  ErrorType.New TypeNotValid "" original

/-- `func BadRequest` (errors.go:160-162). -/
def BadRequest (original : Option GoError) : AppError :=
  ErrorType.New TypeBadRequest "" original

/-- `func Unauthorized` (errors.go:164-166). -/
def Unauthorized (original : Option GoError) : AppError :=
  ErrorType.New TypeUnauthorized "" original

/-- `func Forbidden` (errors.go:168-170). -/
def Forbidden (original : Option GoError) : AppError :=
  ErrorType.New TypeForbidden "" original

/-- `func NotFound` (errors.go:172-174). -/
def NotFound (original : Option GoError) : AppError :=
  ErrorType.New TypeNotFound "" original

/-- `func UnprocessableEntity` (errors.go:176-178). -/
def UnprocessableEntity (original : Option GoError) : AppError :=
  ErrorType.New TypeUnprocessableEntity "" original

/-- `func Internal` (errors.go:180-182). -/
def Internal (original : Option GoError) : AppError :=
  ErrorType.New TypeInternal "" original

/-- `func TemporaryUnavailable` (errors.go:184-186). -/
def TemporaryUnavailable (original : Option GoError) : AppError :=
  ErrorType.New TypeTemporaryUnavailable "" original

/-- `func Unknown` (errors.go:188-190). -/
def Unknown (original : Option GoError) : AppError :=
  ErrorType.New TypeUnknown "" original

/-- `func MethodNotAllowed` (errors.go:192-194). -/
def MethodNotAllowed (original : Option GoError) : AppError :=
  ErrorType.New TypeMethodNotAllowed "" original

/-- `func TooManyRequests` (errors.go:196-198). -/
def TooManyRequests (original : Option GoError) : AppError :=
  ErrorType.New TypeTooManyRequests "" original

/-! ## Methods, on a pointer into the heap -/

/-- The allocated `AppError` cells. A `*AppError` is an index into the heap; a
pointer that addresses no cell, such as Go's `nil`, makes a method panic on its
first field access, which is rendered as `none`. -/
abbrev Heap := List AppError

/-- A `*AppError`. -/
abbrev Ptr := Nat

/-- `ErrorType.New` (errors.go:101-106) with its allocation `&AppError{...}`
explicit: the new cell is appended and its address returned. -/
def Mem.New (h : Heap) (eType : ErrorType) (message : String) (original : Option GoError) :
    Heap × Ptr :=
  (h ++ [ErrorType.New eType message original], h.length)

/-- `Error()` (errors.go:46-51) through a pointer. -/
def Mem.Error (h : Heap) (e : Ptr) : Option String :=
  match h[e]? with
  | none => none
  | some v => some v.Error

/-- `Unwrap()` (errors.go:53-55) through a pointer. -/
def Mem.Unwrap (h : Heap) (e : Ptr) : Option (Option GoError) :=
  match h[e]? with
  | none => none
  | some v => some v.Unwrap

/-- `Type()` (errors.go:57-59) through a pointer. -/
def Mem.Type (h : Heap) (e : Ptr) : Option ErrorType :=
  match h[e]? with
  | none => none
  | some v => some v.Type

/-- `Message()` (errors.go:61-66) through a pointer. -/
def Mem.Message (h : Heap) (e : Ptr) : Option String :=
  match h[e]? with
  | none => none
  | some v => some v.Message

/-- `HTTPStatusCode()` (errors.go:68-94) through a pointer. -/
def Mem.HTTPStatusCode (h : Heap) (e : Ptr) : Option Int :=
  match h[e]? with
  | none => none
  | some v => some v.HTTPStatusCode

/-- `WithMessage` (errors.go:96-99) through a pointer: `e.message = message`
overwrites the field in the cell `e` addresses, and `return e` hands back the
receiver itself. -/
def Mem.WithMessage (h : Heap) (e : Ptr) (message : String) : Option (Heap × Ptr) :=
  match h[e]? with
  | none => none
  | some v => some (h.set e (v.WithMessage message), e)

/-- A run of successive `WithMessage` calls, each on the pointer the previous
call returned: `e.WithMessage(x1).WithMessage(x2)...`. -/
def Mem.WithMessages (h : Heap) (e : Ptr) : List String → Option (Heap × Ptr)
  | [] => some (h, e)
  | x :: xs =>
    match Mem.WithMessage h e x with
    | none => none
    | some (h', e') => Mem.WithMessages h' e' xs

/-- The eleven `New<Kind>(message, original)` constructors (errors.go:112-154). -/
def messageConstructors : List (String → Option GoError → AppError) :=
  [NewValidation, NewBadRequest, NewUnauthorized, NewForbidden, NewNotFound,
   NewUnprocessableEntity, NewInternal, NewTemporaryUnavailable, NewUnknown,
   NewMethodNotAllowed, NewTooManyRequests]

/-- The eleven `<Kind>(original)` constructors (errors.go:156-198). -/
def defaultConstructors : List (Option GoError → AppError) :=
  [Validation, BadRequest, Unauthorized, Forbidden, NotFound, UnprocessableEntity,
   Internal, TemporaryUnavailable, Unknown, MethodNotAllowed, TooManyRequests]

/-! ## Tables and constructors -/

/-- C1. For each of the eleven kinds, whatever the message `m` and the cause `c`
(nil included), `NewError(k, m, c).HTTPStatusCode()` is the status of the literal
table; and for any kind the status is the same for every message and cause, so it
depends on the kind only. -/
theorem httpStatusCode_newError_table (m : String) (c : Option GoError) :
    (NewError TypeUnknown m c).HTTPStatusCode = 500 ∧
    (NewError TypeNotValid m c).HTTPStatusCode = 422 ∧
    (NewError TypeBadRequest m c).HTTPStatusCode = 400 ∧
    (NewError TypeUnauthorized m c).HTTPStatusCode = 401 ∧
    (NewError TypeForbidden m c).HTTPStatusCode = 403 ∧
    (NewError TypeNotFound m c).HTTPStatusCode = 404 ∧
    (NewError TypeUnprocessableEntity m c).HTTPStatusCode = 422 ∧
    (NewError TypeInternal m c).HTTPStatusCode = 500 ∧
    (NewError TypeTemporaryUnavailable m c).HTTPStatusCode = 503 ∧
    (NewError TypeMethodNotAllowed m c).HTTPStatusCode = 405 ∧
    (NewError TypeTooManyRequests m c).HTTPStatusCode = 429 ∧
    (∀ (k : ErrorType) (m' : String) (c' : Option GoError),
      (NewError k m c).HTTPStatusCode = (NewError k m' c').HTTPStatusCode) := by
  refine ⟨rfl, rfl, rfl, rfl, rfl, rfl, rfl, rfl, rfl, rfl, rfl, ?_⟩
  intro k m' c'
  rfl

/-- C2, as stated, fails at `TypeNotFound`: the claim spells the default message
with the single letter U+0439 (16 code points), while `defaultMessages` at
errors.go:30, like the expectations at errors_test.go:166 and 319, spells it with
U+0438 followed by the combining breve U+0306 (17 code points). Go compares
strings byte by byte, so `TypeNotFound.New("", nil).Message()` is not the string
of the claim. -/
theorem message_new_empty_notFound_counterexample :
    (ErrorType.New TypeNotFound "" none).Message ≠ "Ресурс не на\u0439ден" ∧
    (ErrorType.New TypeNotFound "" none).Message = "Ресурс не на\u0438\u0306ден" ∧
    String.length (ErrorType.New TypeNotFound "" none).Message = 17 ∧
    String.length "Ресурс не на\u0439ден" = 16 := by
  decide

/-- C2, amended. For each of the eleven kinds and every cause `c` (nil included),
`k.New("", c).Message()` is that kind's default message, the exact literal of the
`defaultMessages` table of errors.go; the literal of `TypeNotFound` is the one
spelled with U+0438 U+0306, the other ten are those of the claim. -/
theorem message_new_empty_default (c : Option GoError) :
    (ErrorType.New TypeNotValid "" c).Message = "Ошибка валидации данных" ∧
    (ErrorType.New TypeBadRequest "" c).Message = "Некорректные данные запроса" ∧
    (ErrorType.New TypeUnauthorized "" c).Message = "Пользователь не авторизован" ∧
    (ErrorType.New TypeForbidden "" c).Message
      = "Недостаточно прав для выполнения операции" ∧
    (ErrorType.New TypeNotFound "" c).Message = "Ресурс не найден" ∧
    (ErrorType.New TypeUnprocessableEntity "" c).Message = "Невозможно обработать запрос" ∧
    (ErrorType.New TypeInternal "" c).Message = "Внутренняя ошибка сервера" ∧
    (ErrorType.New TypeTemporaryUnavailable "" c).Message = "Сервис временно недоступен" ∧
    (ErrorType.New TypeMethodNotAllowed "" c).Message = "Метод не поддерживается" ∧
    (ErrorType.New TypeUnknown "" c).Message = "Неизвестная ошибка" ∧
    (ErrorType.New TypeTooManyRequests "" c).Message
      = "Превышено допустимое количество запросов" := by
  refine ⟨rfl, rfl, rfl, rfl, rfl, rfl, rfl, rfl, rfl, rfl, rfl⟩

/-- C3. For every kind `k`, every non-empty message `m` and every cause `c` (nil
included), `k.New(m, c).Message()` is `m`. -/
theorem message_new_nonempty (k : ErrorType) (m : String) (c : Option GoError)
    (hm : m ≠ "") : (ErrorType.New k m c).Message = m := by
  simp [ErrorType.New, AppError.Message, hm]

/-- C3 at `TypeBadRequest.New("Custom message", errOriginal)`. -/
theorem message_new_nonempty_witness :
    "Custom message" ≠ "" ∧
    (ErrorType.New TypeBadRequest "Custom message"
      (some { ref := 0, Error := "original error" })).Message = "Custom message" :=
  ⟨by decide, message_new_nonempty _ _ _ (by decide)⟩

/-- C4. For every kind `k` and message `m`: with a non-nil cause `g`,
`NewError(k, m, g).Error()` is `g.Error()`; with a nil cause it is the stored
message, which is `m` when `m` is non-empty and `defaultMessages[k]` when `m` is
empty. -/
theorem error_newError (k : ErrorType) (m : String) :
    (∀ g : GoError, (NewError k m (some g)).Error = g.Error) ∧
    (NewError k m none).Error = (NewError k m none).message ∧
    (NewError k m none).Error = (if m = "" then mapIndex defaultMessages k else m) :=
  ⟨fun _ => rfl, rfl, rfl⟩

/-- C5. For every kind `k`, message `m` and cause `c`, `NewError(k, m, c).Unwrap()`
is the cause `c` passed at construction, so nil when `c` is nil. -/
theorem unwrap_newError (k : ErrorType) (m : String) (c : Option GoError) :
    (NewError k m c).Unwrap = c ∧ (NewError k m none).Unwrap = none :=
  ⟨rfl, rfl⟩

/-! ## Default messages of the declared kinds -/

/-- Every declared kind has a non-empty entry in `defaultMessages`. -/
theorem mapIndex_defaultMessages_ne_empty (k : ErrorType) (hk : k ∈ declaredTypes) :
    mapIndex defaultMessages k ≠ "" := by
  simp only [declaredTypes, List.mem_cons, List.mem_singleton, List.not_mem_nil,
    or_false] at hk
  rcases hk with rfl | rfl | rfl | rfl | rfl | rfl | rfl | rfl | rfl | rfl | rfl <;> decide

/-- On a declared kind `Message()` is non-empty, whatever the stored message. -/
theorem AppError.message_ne_empty (e : AppError) (hk : e.errorType ∈ declaredTypes) :
    e.Message ≠ "" := by
  unfold AppError.Message
  split
  · assumption
  · exact mapIndex_defaultMessages_ne_empty _ hk

/-- `WithMessage` calls never touch the kind. -/
theorem AppError.errorType_foldl_withMessage (xs : List String) (e : AppError) :
    (xs.foldl AppError.WithMessage e).errorType = e.errorType := by
  induction xs generalizing e with
  | nil => rfl
  | cons x xs ih => simpa [AppError.WithMessage] using ih (e.WithMessage x)

/-! ## `WithMessage` -/

/-- Reading back the cell that `Mem.WithMessage` has just overwritten. -/
theorem Mem.withMessage_of_live (h : Heap) (e : Ptr) (v : AppError) (x : String)
    (hv : h[e]? = some v) :
    Mem.WithMessage h e x = some (h.set e (v.WithMessage x), e) ∧
    (h.set e (v.WithMessage x))[e]? = some (v.WithMessage x) := by
  have hlt : e < h.length := by
    rcases List.getElem?_eq_some_iff.mp hv with ⟨hlt, _⟩
    exact hlt
  constructor
  · simp [Mem.WithMessage, hv]
  · simp [hlt]

/-- C6, as stated, fails at the empty string: on the cell built by
`TypeInternal.New("x", nil)`, `e.WithMessage("")` stores `""` and `e.Message()`
then returns the default message of the kind, which is not `""`. -/
theorem withMessage_empty_message_counterexample :
    Mem.WithMessage [ErrorType.New TypeInternal "x" none] 0 ""
      = some ([{ errorType := TypeInternal, message := "", original := none }], 0) ∧
    Mem.Message [{ errorType := TypeInternal, message := "", original := none }] 0
      = some "Внутренняя ошибка сервера" ∧
    Mem.Message [{ errorType := TypeInternal, message := "", original := none }] 0
      ≠ some "" := by
  decide

/-- C6, amended. For every live `AppError` pointer `e` (any kind, any prior stored
message, any cause) and every non-empty string `x`, `e.WithMessage(x)` returns, and
afterwards `e.Message()` is `x`, both through `e` and through the returned pointer. -/
theorem message_after_withMessage_nonempty (h : Heap) (e : Ptr) (v : AppError) (x : String)
    (hv : h[e]? = some v) (hx : x ≠ "") :
    ∃ h' e', Mem.WithMessage h e x = some (h', e') ∧
      Mem.Message h' e = some x ∧ Mem.Message h' e' = some x ∧
      (v.WithMessage x).Message = x := by
  obtain ⟨hw, hr⟩ := Mem.withMessage_of_live h e v x hv
  have hm : (v.WithMessage x).Message = x := by
    simp [AppError.WithMessage, AppError.Message, hx]
  refine ⟨_, _, hw, ?_, ?_, hm⟩ <;> simp [Mem.Message, hr, hm]

/-- C6, amended, on the error of the test suite:
`NewError(TypeBadRequest, "Initial message", errOriginal).WithMessage("Updated message")`. -/
theorem message_after_withMessage_nonempty_witness :
    ∃ h' e', Mem.WithMessage
        [NewError TypeBadRequest "Initial message" (some { ref := 0, Error := "original error" })]
        0 "Updated message" = some (h', e') ∧
      Mem.Message h' 0 = some "Updated message" ∧
      Mem.Message h' e' = some "Updated message" ∧
      (AppError.WithMessage
        (NewError TypeBadRequest "Initial message" (some { ref := 0, Error := "original error" }))
        "Updated message").Message = "Updated message" :=
  message_after_withMessage_nonempty
    [NewError TypeBadRequest "Initial message" (some { ref := 0, Error := "original error" })]
    0 _ "Updated message" rfl (by decide)

/-- C7. `Message()` is a live fallback: for every live `AppError` pointer `e`
whose kind is one of the eleven kinds (whatever its stored message and cause),
`e.WithMessage("")` returns, leaves `""` in the stored field, and `Message()` on
the result is `defaultMessages[e.Type()]`, which is not the stored `""`. -/
theorem message_after_withMessage_empty (h : Heap) (e : Ptr) (v : AppError)
    (hv : h[e]? = some v) (hk : v.Type ∈ declaredTypes) :
    ∃ h' e', Mem.WithMessage h e "" = some (h', e') ∧
      h'[e']? = some { errorType := v.errorType, message := "", original := v.original } ∧
      Mem.Message h' e' = some (mapIndex defaultMessages v.Type) ∧
      (v.WithMessage "").Message = mapIndex defaultMessages v.Type ∧
      mapIndex defaultMessages v.Type ≠ "" := by
  obtain ⟨hw, hr⟩ := Mem.withMessage_of_live h e v "" hv
  have hm : (v.WithMessage "").Message = mapIndex defaultMessages v.Type := by
    simp [AppError.WithMessage, AppError.Message, AppError.Type]
  refine ⟨_, _, hw, ?_, ?_, hm, mapIndex_defaultMessages_ne_empty _ hk⟩
  · simpa [AppError.WithMessage] using hr
  · simp [Mem.Message, hr, hm]

/-- C7 on `TypeNotFound.New("gone", nil)`: after `WithMessage("")` the message is
the default of `TypeNotFound` again, the literal of errors.go:30 with its bytes. -/
theorem message_after_withMessage_empty_witness :
    ∃ h' e', Mem.WithMessage [ErrorType.New TypeNotFound "gone" none] 0 "" = some (h', e') ∧
      h'[e']? = some { errorType := TypeNotFound, message := "", original := none } ∧
      Mem.Message h' e' = some "Ресурс не найден" ∧
      (AppError.WithMessage (ErrorType.New TypeNotFound "gone" none) "").Message
        = "Ресурс не найден" ∧
      "Ресурс не найден" ≠ "" :=
  message_after_withMessage_empty [ErrorType.New TypeNotFound "gone" none] 0 _ rfl
    (by decide)

/-- A run of `WithMessage` calls on a live pointer returns that pointer, and the
cell it addresses then holds the pointee after the same calls. -/
theorem Mem.withMessages_of_live (xs : List String) (h : Heap) (e : Ptr) (v : AppError)
    (hv : h[e]? = some v) :
    ∃ h', Mem.WithMessages h e xs = some (h', e) ∧
      h'[e]? = some (xs.foldl AppError.WithMessage v) := by
  induction xs generalizing h v with
  | nil => exact ⟨h, rfl, hv⟩
  | cons x xs ih =>
    obtain ⟨hw, hr⟩ := Mem.withMessage_of_live h e v x hv
    obtain ⟨h', hrun, hcell⟩ := ih _ _ hr
    exact ⟨h', by simpa [Mem.WithMessages, hw] using hrun, by simpa using hcell⟩

/-- C8. Invariant: an `AppError` built by any constructor with one of the eleven
kinds (any message `m`, any cause `c`) and then put through any finite sequence
`xs` of `WithMessage` calls, the empty string included, never has an empty
`Message()`. The constructors are `NewError`, `ErrorType.New`, the eleven
`New<Kind>` and the eleven `<Kind>`; the last conjunct is the same run on the heap,
from the allocation on. -/
theorem message_never_empty (k : ErrorType) (m : String) (c : Option GoError)
    (xs : List String) (hk : k ∈ declaredTypes) :
    (xs.foldl AppError.WithMessage (NewError k m c)).Message ≠ "" ∧
    (xs.foldl AppError.WithMessage (ErrorType.New k m c)).Message ≠ "" ∧
    (∀ f ∈ messageConstructors, (xs.foldl AppError.WithMessage (f m c)).Message ≠ "") ∧
    (∀ f ∈ defaultConstructors, (xs.foldl AppError.WithMessage (f c)).Message ≠ "") ∧
    (∀ h : Heap, ∃ h' s, Mem.WithMessages (Mem.New h k m c).1 (Mem.New h k m c).2 xs
        = some (h', (Mem.New h k m c).2) ∧
      Mem.Message h' (Mem.New h k m c).2 = some s ∧ s ≠ "") := by
  have key : ∀ e : AppError, e.errorType ∈ declaredTypes →
      (xs.foldl AppError.WithMessage e).Message ≠ "" := by
    intro e he
    apply AppError.message_ne_empty
    rw [AppError.errorType_foldl_withMessage]
    exact he
  refine ⟨key _ hk, key _ hk, ?_, ?_, ?_⟩
  · intro f hf
    simp only [messageConstructors, List.mem_cons, List.mem_singleton, List.not_mem_nil,
      or_false] at hf
    rcases hf with rfl | rfl | rfl | rfl | rfl | rfl | rfl | rfl | rfl | rfl | rfl <;>
      exact key (ErrorType.New _ m c) (by simp [ErrorType.New, declaredTypes])
  · intro f hf
    simp only [defaultConstructors, List.mem_cons, List.mem_singleton, List.not_mem_nil,
      or_false] at hf
    rcases hf with rfl | rfl | rfl | rfl | rfl | rfl | rfl | rfl | rfl | rfl | rfl <;>
      exact key (ErrorType.New _ "" c) (by simp [ErrorType.New, declaredTypes])
  · intro h
    have hcell : (Mem.New h k m c).1[(Mem.New h k m c).2]? = some (ErrorType.New k m c) := by
      simp [Mem.New]
    obtain ⟨h', hrun, hread⟩ := Mem.withMessages_of_live xs _ _ _ hcell
    exact ⟨h', _, hrun, by simp [Mem.Message, hread], key (ErrorType.New k m c) hk⟩

/-- C8 on `NewError(TypeUnauthorized, "", nil)` followed by `WithMessage("a")`,
`WithMessage("")`: the message is the default of `TypeUnauthorized`, not `""`. -/
theorem message_never_empty_witness :
    TypeUnauthorized ∈ declaredTypes ∧
    (["a", ""].foldl AppError.WithMessage (NewError TypeUnauthorized "" none)).Message ≠ "" ∧
    (["a", ""].foldl AppError.WithMessage (Unauthorized none)).Message ≠ "" :=
  ⟨by decide,
   (message_never_empty TypeUnauthorized "" none ["a", ""] (by decide)).1,
   (message_never_empty TypeUnauthorized "" none ["a", ""] (by decide)).2.2.2.1 Unauthorized
     (by simp [defaultConstructors])⟩

/-! ## Shortcut constructors -/

/-- C9. Every shortcut constructor is the canonical constructor at its own kind:
for every message `m` and cause `c`, `New<Kind>(m, c)` is the same `AppError` value
as `NewError(Type<Kind>, m, c)` and `<Kind>(c)` the same as
`NewError(Type<Kind>, "", c)`, for all eleven pairs (`Validation` and
`NewValidation` at `TypeNotValid`); in particular `Type()` of each result is that
kind. -/
theorem shortcut_constructors_eq_newError (m : String) (c : Option GoError) :
    (
     NewValidation m c = NewError TypeNotValid m c ∧
     NewBadRequest m c = NewError TypeBadRequest m c ∧
     NewUnauthorized m c = NewError TypeUnauthorized m c ∧
     NewForbidden m c = NewError TypeForbidden m c ∧
     NewNotFound m c = NewError TypeNotFound m c ∧
     NewUnprocessableEntity m c = NewError TypeUnprocessableEntity m c ∧
     NewInternal m c = NewError TypeInternal m c ∧
     NewTemporaryUnavailable m c = NewError TypeTemporaryUnavailable m c ∧
     NewUnknown m c = NewError TypeUnknown m c ∧
     NewMethodNotAllowed m c = NewError TypeMethodNotAllowed m c ∧
     NewTooManyRequests m c = NewError TypeTooManyRequests m c) ∧
    (
     Validation c = NewError TypeNotValid "" c ∧
     BadRequest c = NewError TypeBadRequest "" c ∧
     Unauthorized c = NewError TypeUnauthorized "" c ∧
     Forbidden c = NewError TypeForbidden "" c ∧
     NotFound c = NewError TypeNotFound "" c ∧
     UnprocessableEntity c = NewError TypeUnprocessableEntity "" c ∧
     Internal c = NewError TypeInternal "" c ∧
     TemporaryUnavailable c = NewError TypeTemporaryUnavailable "" c ∧
     Unknown c = NewError TypeUnknown "" c ∧
     MethodNotAllowed c = NewError TypeMethodNotAllowed "" c ∧
     TooManyRequests c = NewError TypeTooManyRequests "" c) ∧
    (
     (NewValidation m c).Type = TypeNotValid ∧
     (NewBadRequest m c).Type = TypeBadRequest ∧
     (NewUnauthorized m c).Type = TypeUnauthorized ∧
     (NewForbidden m c).Type = TypeForbidden ∧
     (NewNotFound m c).Type = TypeNotFound ∧
     (NewUnprocessableEntity m c).Type = TypeUnprocessableEntity ∧
     (NewInternal m c).Type = TypeInternal ∧
     (NewTemporaryUnavailable m c).Type = TypeTemporaryUnavailable ∧
     (NewUnknown m c).Type = TypeUnknown ∧
     (NewMethodNotAllowed m c).Type = TypeMethodNotAllowed ∧
     (NewTooManyRequests m c).Type = TypeTooManyRequests) ∧
    (
     (Validation c).Type = TypeNotValid ∧
     (BadRequest c).Type = TypeBadRequest ∧
     (Unauthorized c).Type = TypeUnauthorized ∧
     (Forbidden c).Type = TypeForbidden ∧
     (NotFound c).Type = TypeNotFound ∧
     (UnprocessableEntity c).Type = TypeUnprocessableEntity ∧
     (Internal c).Type = TypeInternal ∧
     (TemporaryUnavailable c).Type = TypeTemporaryUnavailable ∧
     (Unknown c).Type = TypeUnknown ∧
     (MethodNotAllowed c).Type = TypeMethodNotAllowed ∧
     (TooManyRequests c).Type = TypeTooManyRequests) :=
  ⟨⟨rfl, rfl, rfl, rfl, rfl, rfl, rfl, rfl, rfl, rfl, rfl⟩,
   ⟨rfl, rfl, rfl, rfl, rfl, rfl, rfl, rfl, rfl, rfl, rfl⟩,
   ⟨rfl, rfl, rfl, rfl, rfl, rfl, rfl, rfl, rfl, rfl, rfl⟩,
   ⟨rfl, rfl, rfl, rfl, rfl, rfl, rfl, rfl, rfl, rfl, rfl⟩⟩

/-! ## Frame of `WithMessage` -/

/-- C10. `WithMessage` changes only the stored message: for every live `AppError`
pointer `e` and every string `x`, `e.WithMessage(x)` returns the pointer `e` itself,
the cell it addresses differs from before in the `message` field only, `Type()`,
`Unwrap()` and `HTTPStatusCode()` return after the call what they returned before
it, and every other cell of the heap is untouched. -/
theorem withMessage_frame (h : Heap) (e : Ptr) (v : AppError) (x : String)
    (hv : h[e]? = some v) :
    ∃ h', Mem.WithMessage h e x = some (h', e) ∧
      h'[e]? = some { errorType := v.errorType, message := x, original := v.original } ∧
      (Mem.Type h e = some v.errorType ∧ Mem.Type h' e = Mem.Type h e) ∧
      (Mem.Unwrap h e = some v.original ∧ Mem.Unwrap h' e = Mem.Unwrap h e) ∧
      (Mem.HTTPStatusCode h e = some v.HTTPStatusCode ∧
        Mem.HTTPStatusCode h' e = Mem.HTTPStatusCode h e) ∧
      h'.length = h.length ∧ (∀ q : Ptr, q ≠ e → h'[q]? = h[q]?) := by
  obtain ⟨hw, hr⟩ := Mem.withMessage_of_live h e v x hv
  refine ⟨_, hw, ?_, ?_, ?_, ?_, ?_, ?_⟩
  · simpa [AppError.WithMessage] using hr
  · simp only [Mem.Type, hv, hr]
    exact ⟨rfl, rfl⟩
  · simp only [Mem.Unwrap, hv, hr]
    exact ⟨rfl, rfl⟩
  · simp only [Mem.HTTPStatusCode, hv, hr]
    exact ⟨trivial, rfl⟩
  · simp
  · intro q hq
    simp [List.getElem?_set_ne (Ne.symm hq)]

/-- C10 on `TypeInternal.New("x", err).WithMessage("y")`, with a second error in
the heap that the call leaves alone. -/
theorem withMessage_frame_witness :
    ∃ h', Mem.WithMessage
        [ErrorType.New TypeNotFound "" none,
         ErrorType.New TypeInternal "x" (some { ref := 0, Error := "original error" })]
        1 "y" = some (h', 1) ∧
      h'[1]? = some { errorType := TypeInternal, message := "y",
                       original := some { ref := 0, Error := "original error" } } ∧
      (Mem.Type [ErrorType.New TypeNotFound "" none,
         ErrorType.New TypeInternal "x" (some { ref := 0, Error := "original error" })] 1
         = some TypeInternal ∧
       Mem.Type h' 1 = Mem.Type [ErrorType.New TypeNotFound "" none,
         ErrorType.New TypeInternal "x" (some { ref := 0, Error := "original error" })] 1) ∧
      (Mem.Unwrap [ErrorType.New TypeNotFound "" none,
         ErrorType.New TypeInternal "x" (some { ref := 0, Error := "original error" })] 1
         = some (some { ref := 0, Error := "original error" }) ∧
       Mem.Unwrap h' 1 = Mem.Unwrap [ErrorType.New TypeNotFound "" none,
         ErrorType.New TypeInternal "x" (some { ref := 0, Error := "original error" })] 1) ∧
      (Mem.HTTPStatusCode [ErrorType.New TypeNotFound "" none,
         ErrorType.New TypeInternal "x" (some { ref := 0, Error := "original error" })] 1
         = some 500 ∧
       Mem.HTTPStatusCode h' 1 = Mem.HTTPStatusCode [ErrorType.New TypeNotFound "" none,
         ErrorType.New TypeInternal "x" (some { ref := 0, Error := "original error" })] 1) ∧
      h'.length = 2 ∧
      (∀ q : Ptr, q ≠ 1 → h'[q]? = [ErrorType.New TypeNotFound "" none,
         ErrorType.New TypeInternal "x" (some { ref := 0, Error := "original error" })][q]?) :=
  withMessage_frame
    [ErrorType.New TypeNotFound "" none,
     ErrorType.New TypeInternal "x" (some { ref := 0, Error := "original error" })]
    1 _ "y" rfl

/-! ## Kinds outside the declared set -/

/-- A value above 10 differs from each of the eleven declared constants. -/
theorem ne_of_undeclared {k j : Nat} (hk : 10 < k) (hj : j ≤ 10) : k ≠ j := by
  omega

/-- A kind above `TypeTooManyRequests` has no entry in `defaultMessages`, so the
map index yields the zero value. -/
theorem mapIndex_defaultMessages_of_undeclared (k : ErrorType) (hk : 10 < k) :
    mapIndex defaultMessages k = "" := by
  have hne : ∀ j : Nat, j ≤ 10 → (k == j) = false := fun j hj =>
    beq_false_of_ne (ne_of_undeclared hk hj)
  simp only [mapIndex, defaultMessages, List.lookup, hne 0 (by decide), hne 1 (by decide),
    hne 2 (by decide), hne 3 (by decide), hne 4 (by decide), hne 5 (by decide),
    hne 6 (by decide), hne 7 (by decide), hne 8 (by decide), hne 9 (by decide),
    hne 10 (by decide)]

/-- The `switch` of `HTTPStatusCode` falls through on a kind above
`TypeTooManyRequests`. -/
theorem AppError.httpStatusCode_of_undeclared (e : AppError) (hk : 10 < e.errorType) :
    e.HTTPStatusCode = 500 := by
  have hne : ∀ j : Nat, j ≤ 10 → e.errorType ≠ j := fun j hj => ne_of_undeclared hk hj
  simp only [AppError.HTTPStatusCode, if_neg (hne 1 (by decide)), if_neg (hne 2 (by decide)),
    if_neg (hne 3 (by decide)), if_neg (hne 4 (by decide)), if_neg (hne 5 (by decide)),
    if_neg (hne 6 (by decide)), if_neg (hne 7 (by decide)), if_neg (hne 8 (by decide)),
    if_neg (hne 9 (by decide)), if_neg (hne 10 (by decide))]

/-- C11. Silent degrade on an unrecognized kind: for every `ErrorType` value `k`
above 10 and every cause `c`, `k.New("", c)` returns an error (the allocation
yields a live pointer), its `Message()` is the empty string and its
`HTTPStatusCode()` is 500. -/
theorem undeclared_kind_degrades (k : ErrorType) (c : Option GoError) (hk : 10 < k) :
    (ErrorType.New k "" c).Message = "" ∧
    (ErrorType.New k "" c).HTTPStatusCode = 500 ∧
    (∀ h : Heap,
      (Mem.New h k "" c).1[(Mem.New h k "" c).2]? = some (ErrorType.New k "" c) ∧
      Mem.Message (Mem.New h k "" c).1 (Mem.New h k "" c).2 = some "" ∧
      Mem.HTTPStatusCode (Mem.New h k "" c).1 (Mem.New h k "" c).2 = some 500) := by
  have hm : (ErrorType.New k "" c).Message = "" := by
    simp [ErrorType.New, AppError.Message, mapIndex_defaultMessages_of_undeclared k hk]
  have hs : (ErrorType.New k "" c).HTTPStatusCode = 500 :=
    AppError.httpStatusCode_of_undeclared _ hk
  refine ⟨hm, hs, ?_⟩
  intro h
  have hcell : (Mem.New h k "" c).1[(Mem.New h k "" c).2]? = some (ErrorType.New k "" c) := by
    simp [Mem.New]
  refine ⟨hcell, ?_, ?_⟩
  · simp only [Mem.Message, hcell, hm]
  · simp only [Mem.HTTPStatusCode, hcell, hs]

/-- C11 at the first undeclared kind, `ErrorType(11)`, with a cause. -/
theorem undeclared_kind_degrades_witness :
    (10 : ErrorType) < 11 ∧
    (ErrorType.New 11 "" (some { ref := 0, Error := "original error" })).Message = "" ∧
    (ErrorType.New 11 "" (some { ref := 0, Error := "original error" })).HTTPStatusCode
      = 500 :=
  ⟨by decide,
   (undeclared_kind_degrades 11 (some { ref := 0, Error := "original error" })
     (by decide)).1,
   (undeclared_kind_degrades 11 (some { ref := 0, Error := "original error" })
     (by decide)).2.1⟩

/-! ## User-facing text, operator text and the cause -/

/-- C12. User-facing output never depends on the wrapped cause: for every kind
`k`, message `m` and any two causes `c1`, `c2` (either may be nil),
`NewError(k, m, c1)` and `NewError(k, m, c2)` have the same `Message()` and the
same `HTTPStatusCode()`, and still do after the same `WithMessage(x)` on both. -/
theorem user_output_independent_of_cause (k : ErrorType) (m : String)
    (c1 c2 : Option GoError) :
    (NewError k m c1).Message = (NewError k m c2).Message ∧
    (NewError k m c1).HTTPStatusCode = (NewError k m c2).HTTPStatusCode ∧
    (∀ x : String,
      ((NewError k m c1).WithMessage x).Message = ((NewError k m c2).WithMessage x).Message ∧
      ((NewError k m c1).WithMessage x).HTTPStatusCode
        = ((NewError k m c2).WithMessage x).HTTPStatusCode) :=
  ⟨rfl, rfl, fun _ => ⟨rfl, rfl⟩⟩

/-- C13. For every `ErrorType` value `k` (declared or not), every message `m` and
every cause `c`, `NewError(k, m, c).Type()` is `k`. -/
theorem type_newError (k : ErrorType) (m : String) (c : Option GoError) :
    (NewError k m c).Type = k :=
  rfl

/-- C14. For a freshly constructed error with no cause the operator text and the
user text coincide: for every `ErrorType` value `k` (declared or not) and every
message `m` (the empty one included), `NewError(k, m, nil).Error()` equals
`NewError(k, m, nil).Message()`. -/
theorem error_eq_message_of_nil_cause (k : ErrorType) (m : String) :
    (NewError k m none).Error = (NewError k m none).Message := by
  by_cases hm : m = ""
  · simp [NewError, ErrorType.New, AppError.Error, AppError.Message, hm]
  · simp [NewError, ErrorType.New, AppError.Error, AppError.Message, hm]

/-- C15. `Error()` does not share the fallback of `Message()`: for every one of
the eleven kinds `k` and every message `m`, on
`NewError(k, m, nil).WithMessage("")` the call `Error()` returns the empty string
while `Message()` returns the non-empty default message of `k`, so the two differ. -/
theorem error_ne_message_after_clear (k : ErrorType) (m : String)
    (hk : k ∈ declaredTypes) :
    ((NewError k m none).WithMessage "").Error = "" ∧
    ((NewError k m none).WithMessage "").Message = mapIndex defaultMessages k ∧
    ((NewError k m none).WithMessage "").Message ≠ "" ∧
    ((NewError k m none).WithMessage "").Error
      ≠ ((NewError k m none).WithMessage "").Message := by
  have he : ((NewError k m none).WithMessage "").Error = "" := rfl
  have hm : ((NewError k m none).WithMessage "").Message = mapIndex defaultMessages k := by
    simp [NewError, ErrorType.New, AppError.WithMessage, AppError.Message]
  have hne : mapIndex defaultMessages k ≠ "" := mapIndex_defaultMessages_ne_empty k hk
  refine ⟨he, hm, ?_, ?_⟩
  · rw [hm]
    exact hne
  · rw [he, hm]
    exact fun h => hne h.symm

/-- C15 on `NewError(TypeForbidden, "no entry", nil).WithMessage("")`. -/
theorem error_ne_message_after_clear_witness :
    TypeForbidden ∈ declaredTypes ∧
    ((NewError TypeForbidden "no entry" none).WithMessage "").Error = "" ∧
    ((NewError TypeForbidden "no entry" none).WithMessage "").Message
      = "Недостаточно прав для выполнения операции" :=
  ⟨by decide,
   (error_ne_message_after_clear TypeForbidden "no entry" (by decide)).1,
   (error_ne_message_after_clear TypeForbidden "no entry" (by decide)).2.1⟩

/-! ## Range of the status code -/

/-- The `switch` of `HTTPStatusCode` has nine possible outcomes. -/
theorem AppError.httpStatusCode_cases (e : AppError) :
    e.HTTPStatusCode = 400 ∨ e.HTTPStatusCode = 401 ∨ e.HTTPStatusCode = 403 ∨
    e.HTTPStatusCode = 404 ∨ e.HTTPStatusCode = 405 ∨ e.HTTPStatusCode = 422 ∨
    e.HTTPStatusCode = 429 ∨ e.HTTPStatusCode = 500 ∨ e.HTTPStatusCode = 503 := by
  unfold AppError.HTTPStatusCode
  by_cases h1 : e.errorType = TypeNotValid
  · simp only [if_pos h1]; decide
  by_cases h2 : e.errorType = TypeBadRequest
  · simp only [if_neg h1, if_pos h2]; decide
  by_cases h3 : e.errorType = TypeUnauthorized
  · simp only [if_neg h1, if_neg h2, if_pos h3]; decide
  by_cases h4 : e.errorType = TypeForbidden
  · simp only [if_neg h1, if_neg h2, if_neg h3, if_pos h4]; decide
  by_cases h5 : e.errorType = TypeNotFound
  · simp only [if_neg h1, if_neg h2, if_neg h3, if_neg h4, if_pos h5]; decide
  by_cases h6 : e.errorType = TypeUnprocessableEntity
  · simp only [if_neg h1, if_neg h2, if_neg h3, if_neg h4, if_neg h5, if_pos h6]; decide
  by_cases h7 : e.errorType = TypeInternal
  · simp only [if_neg h1, if_neg h2, if_neg h3, if_neg h4, if_neg h5, if_neg h6, if_pos h7]
    decide
  by_cases h8 : e.errorType = TypeTemporaryUnavailable
  · simp only [if_neg h1, if_neg h2, if_neg h3, if_neg h4, if_neg h5, if_neg h6, if_neg h7,
      if_pos h8]
    decide
  by_cases h9 : e.errorType = TypeMethodNotAllowed
  · simp only [if_neg h1, if_neg h2, if_neg h3, if_neg h4, if_neg h5, if_neg h6, if_neg h7,
      if_neg h8, if_pos h9]
    decide
  by_cases h10 : e.errorType = TypeTooManyRequests
  · simp only [if_neg h1, if_neg h2, if_neg h3, if_neg h4, if_neg h5, if_neg h6, if_neg h7,
      if_neg h8, if_neg h9, if_pos h10]
    decide
  · simp only [if_neg h1, if_neg h2, if_neg h3, if_neg h4, if_neg h5, if_neg h6, if_neg h7,
      if_neg h8, if_neg h9, if_neg h10]
    decide

/-- C16. For every `AppError` of every `ErrorType` value (declared or not), with
any message and cause, `HTTPStatusCode()` is one of 400, 401, 403, 404, 405, 422,
429, 500, 503; hence it lies in 400..599 and is never a success or redirect
code. -/
theorem httpStatusCode_is_error_status (e : AppError) :
    e.HTTPStatusCode ∈ ([400, 401, 403, 404, 405, 422, 429, 500, 503] : List Int) ∧
    400 ≤ e.HTTPStatusCode ∧ e.HTTPStatusCode ≤ 599 ∧
    ¬ (200 ≤ e.HTTPStatusCode ∧ e.HTTPStatusCode < 400) := by
  rcases AppError.httpStatusCode_cases e with h | h | h | h | h | h | h | h | h <;>
    rw [h] <;> decide

end apperror
